import Mathlib

/-!
Verification development for the Soft Actor-Critic implementation in
SAC_MuJoCo.py.  The Python/TensorFlow source is shallowly embedded: tensors
become Lean lists of real numbers, float arithmetic is modelled as exact
real arithmetic, the Keras networks and the Adam optimizers (external
capabilities of the TensorFlow framework per the design) are abstracted as
function parameters, and the random draws performed by numpy and TensorFlow
are passed in explicitly as data.
-/

set_option autoImplicit false

/-- Transition record stored by the replay buffer: one row of the four
parallel arrays frames / actions / rewards / terminal (source lines 17-20).
The element types are kept generic; the buffer logic never inspects them. -/
structure Transition (S A R : Type) where
  frame : S
  action : A
  reward : R
  terminal : Bool

/-- Shallow embedding of ReplayMemoryBuffer (source lines 11-29).  The four
numpy arrays are modelled as maps from slot index to Option: np.empty
allocates uninitialized storage, modelled as none until a slot is first
written. -/
structure ReplayMemoryBuffer (S A R : Type) where
  counter : ℕ
  pointer : ℕ
  max_size : ℕ
  frames : ℕ → Option S
  actions : ℕ → Option A
  rewards : ℕ → Option R
  terminal : ℕ → Option Bool

/-- ReplayMemoryBuffer.__init__ (source lines 12-20): counter = 0,
pointer = 0, max_size = size, all four arrays uninitialized. -/
def ReplayMemoryBuffer.mk0 (S A R : Type) (size : ℕ) : ReplayMemoryBuffer S A R :=
  { counter := 0
    pointer := 0
    max_size := size
    frames := fun _ => none
    actions := fun _ => none
    rewards := fun _ => none
    terminal := fun _ => none }

/-- ReplayMemoryBuffer.store (source lines 22-29): write the transition into
the slot at the write pointer, set counter to max(counter, pointer + 1), then
advance the pointer modulo max_size.  The source raises no error and returns
nothing; the embedding is a total function on the buffer state. -/
def ReplayMemoryBuffer.store {S A R : Type} (b : ReplayMemoryBuffer S A R)
    (t : Transition S A R) : ReplayMemoryBuffer S A R :=
  { b with
    frames := Function.update b.frames b.pointer (some t.frame)
    actions := Function.update b.actions b.pointer (some t.action)
    rewards := Function.update b.rewards b.pointer (some t.reward)
    terminal := Function.update b.terminal b.pointer (some t.terminal)
    counter := max b.counter (b.pointer + 1)
    pointer := (b.pointer + 1) % b.max_size }

/-- A sequence of store calls, oldest first.  Models the external training
loop repeatedly invoking store (source lines 266 and 300). -/
def ReplayMemoryBuffer.storeList {S A R : Type} (b : ReplayMemoryBuffer S A R)
    (L : List (Transition S A R)) : ReplayMemoryBuffer S A R :=
  L.foldl ReplayMemoryBuffer.store b

/-- One row of the dict returned by sample_batch (source lines 33-40):
s, a, r, d are read at the sampled index i and s2 at index i + 1. -/
structure SampleRow (S A R : Type) where
  s : Option S
  a : Option A
  r : Option R
  s2 : Option S
  d : Option Bool

/-- ReplayMemoryBuffer.sample_batch (source lines 31-47).  The call
np.random.randint(low=0, high=self.counter - 1, size=batch_size) raises
ValueError whenever high <= low, i.e. whenever counter < 2; this is the none
branch.  Otherwise randint returns batch_size independent uniform draws from
the half-open range [0, counter - 1); those draws are supplied here as the
list idxs, and each returned row is assembled exactly as in the source, in
sampling order, with the next state read from index i + 1. -/
def ReplayMemoryBuffer.sample_batch {S A R : Type} (b : ReplayMemoryBuffer S A R)
    (idxs : List ℕ) : Option (List (SampleRow S A R)) :=
  if 2 ≤ b.counter then
    some (idxs.map fun i =>
      { s := b.frames i
        a := b.actions i
        r := b.rewards i
        s2 := b.frames (i + 1)
        d := b.terminal i })
  else none

/-- Range of one index draw inside sample_batch: np.random.randint with
low = 0 and high = counter - 1 yields values in [0, counter - 1). -/
def ReplayMemoryBuffer.validDrawIdx {S A R : Type} (b : ReplayMemoryBuffer S A R)
    (i : ℕ) : Prop :=
  i < b.counter - 1

/-- PolicyPi.sample_action (source lines 134-155), one batch row.  The
forward pass self(state) has already produced the per-action-dimension pairs
(mu, std), given as the list musig; xi is the standard-normal draw
tf.random.normal(tf.shape(mu)), supplied explicitly (it has the shape of mu,
hence one value per dimension).  Returns (action, log_prob) for the row;
log_prob is a single scalar because the two reduce_sum calls reduce the
action dimensions (the batch dimension is preserved by mapping this function
over the batch rows). -/
noncomputable def PolicyPi.sample_action (musig : List (ℝ × ℝ)) (xi : List ℝ) :
    List ℝ × ℝ :=
  let rows := musig.zip xi
  -- a_bar = mu + std * xi  (reparameterization trick, line 139)
  let a_bar := rows.map fun p => p.1.1 + p.1.2 * p.2
  -- action = tanh(a_bar)  (line 140)
  let action := a_bar.map Real.tanh
  -- log_gaussian (lines 145-147): per dimension
  -- -0.5*(((a_bar - mu)/(std + 1e-6))^2 + 2*log(std + 1e-6) + log(2*pi)),
  -- then reduce_sum over the action dimensions; a_bar = mu + std * xi is
  -- substituted inline
  let log_gaussian := (rows.map fun p =>
    -0.5 * ((((p.1.1 + p.1.2 * p.2) - p.1.1) / (p.1.2 + 1e-6)) ^ 2
      + 2 * Real.log (p.1.2 + 1e-6) + Real.log (2 * Real.pi))).sum
  -- log_squash (line 151): reduce_sum of log(1 - action^2 + 1e-6)
  let log_squash := (action.map fun av => Real.log (1 - av ^ 2 + 1e-6)).sum
  -- log_prob = log_gaussian - log_squash  (line 153)
  (action, log_gaussian - log_squash)

/-- Gaussian log-density term written the way the specification states it:
per dimension -1/2 * (((a_bar - mu)/(sigma + eps))^2 + 2*log(sigma + eps)
+ log(2*pi)) with a_bar = mu + sigma * xi and eps = 1e-6, summed over the
action dimensions. -/
noncomputable def specGaussianLogDensity (musig : List (ℝ × ℝ)) (xi : List ℝ) : ℝ :=
  ((musig.zip xi).map fun p =>
    -0.5 * ((((p.1.1 + p.1.2 * p.2) - p.1.1) / (p.1.2 + 1e-6)) ^ 2
      + 2 * Real.log (p.1.2 + 1e-6) + Real.log (2 * Real.pi))).sum

/-- Tanh-Jacobian correction written the way the specification states it:
the sum over action dimensions of log(1 - tanh(a_bar)^2 + eps) with
a_bar = mu + sigma * xi and eps = 1e-6. -/
noncomputable def specTanhCorrection (musig : List (ℝ × ℝ)) (xi : List ℝ) : ℝ :=
  ((musig.zip xi).map fun p =>
    Real.log (1 - Real.tanh (p.1.1 + p.1.2 * p.2) ^ 2 + 1e-6)).sum

/-- State of the global TensorFlow random generator that
tf.random.normal(tf.shape(mu)) (source line 138) draws from: a stream of
normal variates and a position that advances with every value drawn. -/
structure TFGlobalRng where
  stream : ℕ → ℝ
  pos : ℕ

/-- Drawing n values from the global generator reads the next n stream
values and advances the position by n. -/
def TFGlobalRng.normal (g : TFGlobalRng) (n : ℕ) : List ℝ × TFGlobalRng :=
  ((List.range n).map fun k => g.stream (g.pos + k), { g with pos := g.pos + n })

/-- PolicyPi.sample_action as it is actually invoked: the noise xi is not a
parameter of the method; it is drawn inside the call, from the global
TensorFlow generator, by tf.random.normal (source line 138), with one value
per action dimension. -/
noncomputable def PolicyPi.sample_actionGlobal (musig : List (ℝ × ℝ))
    (g : TFGlobalRng) : (List ℝ × ℝ) × TFGlobalRng :=
  let drawn := g.normal musig.length
  (PolicyPi.sample_action musig drawn.1, drawn.2)

/-- Abstract network capabilities of the agent.  The concrete Keras
architectures are external to the update algorithm: Qnet applies a critic
with the given flattened parameter list to (state, action) and returns the
scalar estimate (QValue.call, lines 70-86); piFwd is PolicyPi.call
(lines 115-132), mapping policy parameters and a state to the
per-action-dimension (mu, std) pairs.  All four critics share one
architecture (lines 181-184), hence a single Qnet applied to different
parameter lists. -/
structure SACNets (S PP : Type) where
  Qnet : List ℝ → S → List ℝ → ℝ
  piFwd : PP → S → List (ℝ × ℝ)

/-- Abstract automatic-differentiation and optimizer capability
(tf.GradientTape plus the three Adam optimizers, lines 191-193): gradQ is
tape.gradient of a scalar loss viewed as a function of one critic's own
parameter list; gradPi likewise for the policy; stepQ1 / stepQ2 / stepPi are
the apply_gradients steps of Q1_optim, Q2_optim and pi_optim, taking current
parameters and gradients to new parameters. -/
structure AutoDiff (PP : Type) where
  gradQ : (List ℝ → ℝ) → List ℝ → List ℝ
  gradPi : (PP → ℝ) → PP → PP
  stepQ1 : List ℝ → List ℝ → List ℝ
  stepQ2 : List ℝ → List ℝ → List ℝ
  stepPi : PP → PP → PP

/-- Mutable state of the SAC agent (source lines 158-193): the scalar
hyperparameters and the five parameter sets.  Critic parameters are
flattened lists of scalars (one entry per weight); policy parameters keep an
abstract type PP. -/
structure SAC (PP : Type) where
  gamma : ℝ
  polyak : ℝ
  alpha : ℝ
  Q1 : List ℝ
  Q2 : List ℝ
  Q1_target : List ℝ
  Q2_target : List ℝ
  pi : PP

/-- One batch row consumed by SAC.update together with the two fresh
standard-normal draws made during the call: xi2 feeds pi.sample_action(s2)
in the target computation (line 201) and xi1 feeds pi.sample_action(s) in
the policy step (line 222).  d is the terminal flag after the tf.float32
cast (line 45). -/
structure UpdateRow (S : Type) where
  s : S
  a : List ℝ
  r : ℝ
  s2 : S
  d : ℝ
  xi2 : List ℝ
  xi1 : List ℝ

/-- Critic bootstrap target for one batch row (source lines 200-207): sample
(a2, lpi2) = pi.sample_action(s2) with the fresh draw xi2, evaluate both
target critics at (s2, a2), take tf.minimum of the two, and form
y = r + gamma * (1 - d) * (compare_q_target - alpha * lpi2). -/
noncomputable def SAC.criticTarget {S PP : Type} (nets : SACNets S PP)
    (agent : SAC PP) (row : UpdateRow S) : ℝ :=
  let al := PolicyPi.sample_action (nets.piFwd agent.pi row.s2) row.xi2
  let q_1_target_v := nets.Qnet agent.Q1_target row.s2 al.1
  let q_2_target_v := nets.Qnet agent.Q2_target row.s2 al.1
  let compare_q_target := min q_1_target_v q_2_target_v
  row.r + agent.gamma * (1 - row.d) * (compare_q_target - agent.alpha * al.2)

/-- Critic loss as a function of one critic's own parameter list theta
(source lines 212-213): the sum over the batch of squared errors between
that critic's estimate at (s, a) and the shared target y.  The target
y = criticTarget is a fixed constant here: it does not depend on theta, so
the gradient taken of this function propagates nothing into the target
networks or the target computation path (in the source, tape.gradient is
taken only with respect to that critic's trainable_variables, on which y
does not depend). -/
noncomputable def SAC.q_loss_fn {S PP : Type} (nets : SACNets S PP)
    (agent : SAC PP) (batch : List (UpdateRow S)) (theta : List ℝ) : ℝ :=
  (batch.map fun row =>
    (nets.Qnet theta row.s row.a - SAC.criticTarget nets agent row) ^ 2).sum

/-- New parameters of online critic 1 (source lines 215 and 217): one Adam
step on the gradient of its own loss. -/
noncomputable def SAC.q1New {S PP : Type} (nets : SACNets S PP) (ad : AutoDiff PP)
    (agent : SAC PP) (batch : List (UpdateRow S)) : List ℝ :=
  ad.stepQ1 agent.Q1 (ad.gradQ (SAC.q_loss_fn nets agent batch) agent.Q1)

/-- New parameters of online critic 2 (source lines 216 and 218): one Adam
step on the gradient of its own loss. -/
noncomputable def SAC.q2New {S PP : Type} (nets : SACNets S PP) (ad : AutoDiff PP)
    (agent : SAC PP) (batch : List (UpdateRow S)) : List ℝ :=
  ad.stepQ2 agent.Q2 (ad.gradQ (SAC.q_loss_fn nets agent batch) agent.Q2)

/-- Policy loss as a function of the policy parameters theta (source lines
221-230): resample (a1, lpi1) = pi.sample_action(s) with the fresh draw xi1,
evaluate both online critics — already updated by the critic step — at
(s, a1), take tf.minimum, and form
pi_loss = -reduce_sum(compare_q_a1_v - alpha * lpi1). -/
noncomputable def SAC.pi_loss_fn {S PP : Type} (nets : SACNets S PP)
    (ad : AutoDiff PP) (agent : SAC PP) (batch : List (UpdateRow S))
    (theta : PP) : ℝ :=
  -((batch.map fun row =>
    min (nets.Qnet (SAC.q1New nets ad agent batch) row.s
          (PolicyPi.sample_action (nets.piFwd theta row.s) row.xi1).1)
        (nets.Qnet (SAC.q2New nets ad agent batch) row.s
          (PolicyPi.sample_action (nets.piFwd theta row.s) row.xi1).1)
      - agent.alpha *
          (PolicyPi.sample_action (nets.piFwd theta row.s) row.xi1).2).sum)

/-- Polyak step for aligned parameter tensors (source lines 237-245): for
every pair (weight_target, weight), new_phi = polyak * weight_target
+ (1 - polyak) * weight, assigned in place. -/
def polyakBlend (rho : ℝ) (target online : List ℝ) : List ℝ :=
  List.zipWith (fun wt w => rho * wt + (1 - rho) * w) target online

/-- SAC.update (source lines 195-247): compute both critic losses against
the shared bootstrap target, apply one optimizer step per online critic,
compute the policy loss from a fresh sample against the updated online
critics, apply one optimizer step to the policy, then unconditionally blend
each target critic toward its online critic with the polyak coefficient.
Returns the new agent state together with (q_1_loss, q_2_loss, pi_loss). -/
noncomputable def SAC.update {S PP : Type} (nets : SACNets S PP)
    (ad : AutoDiff PP) (agent : SAC PP) (batch : List (UpdateRow S)) :
    SAC PP × ℝ × ℝ × ℝ :=
  ({ agent with
      Q1 := SAC.q1New nets ad agent batch
      Q2 := SAC.q2New nets ad agent batch
      Q1_target := polyakBlend agent.polyak agent.Q1_target
        (SAC.q1New nets ad agent batch)
      Q2_target := polyakBlend agent.polyak agent.Q2_target
        (SAC.q2New nets ad agent batch)
      pi := ad.stepPi agent.pi
        (ad.gradPi (SAC.pi_loss_fn nets ad agent batch) agent.pi) },
    SAC.q_loss_fn nets agent batch agent.Q1,
    SAC.q_loss_fn nets agent batch agent.Q2,
    SAC.pi_loss_fn nets ad agent batch agent.pi)

/-- Trivial network instantiation used to exhibit concrete agent runs. -/
def trivNets : SACNets Unit Unit :=
  { Qnet := fun _ _ _ => 0, piFwd := fun _ _ => [] }

/-- Trivial optimizer instantiation (identity steps, identity gradients)
used to exhibit concrete agent runs. -/
def trivAd : AutoDiff Unit :=
  { gradQ := fun _ p => p
    gradPi := fun _ p => p
    stepQ1 := fun p _ => p
    stepQ2 := fun p _ => p
    stepPi := fun p _ => p }

/-- Concrete agent state with polyak coefficient 1, one scalar parameter per
critic. -/
def trivAgent : SAC Unit :=
  { gamma := 0, polyak := 1, alpha := 0
    Q1 := [0], Q2 := [0], Q1_target := [0], Q2_target := [0], pi := () }

/-- Concrete transitions for exhibiting buffer behaviour. -/
def wTransitions : List (Transition ℕ ℕ ℕ) :=
  [⟨10, 0, 5, false⟩, ⟨11, 1, 6, true⟩, ⟨12, 2, 7, false⟩]

/-- Invariant of a buffer obtained by a sequence of store calls on a fresh
buffer of capacity C: the capacity and write pointer are as expected, the
valid count is min(length, C), the last C stored transitions occupy their
slots (store number j lives in slot j mod C), and every slot below the valid
count has been written. -/
def BufferInv {S A R : Type} (C : ℕ) (L : List (Transition S A R))
    (b : ReplayMemoryBuffer S A R) : Prop :=
  b.max_size = C ∧
  b.pointer = L.length % C ∧
  b.counter = min L.length C ∧
  (∀ j, (hj : j < L.length) → L.length ≤ j + C →
    b.frames (j % C) = some (L.get ⟨j, hj⟩).frame ∧
    b.actions (j % C) = some (L.get ⟨j, hj⟩).action ∧
    b.rewards (j % C) = some (L.get ⟨j, hj⟩).reward ∧
    b.terminal (j % C) = some (L.get ⟨j, hj⟩).terminal) ∧
  (∀ i, i < b.counter →
    (b.frames i).isSome = true ∧ (b.actions i).isSome = true ∧
    (b.rewards i).isSome = true ∧ (b.terminal i).isSome = true)

/-- Two store indices that are fewer than C apart occupy distinct slots. -/
theorem mod_ne_of_between {C j n : ℕ} (hlt : j < n) (hwin : n < j + C) :
    j % C ≠ n % C := by
  intro h
  have hdvd : C ∣ n - j := (Nat.modEq_iff_dvd' hlt.le).mp h
  have hle : C ≤ n - j := Nat.le_of_dvd (by omega) hdvd
  omega

/-- Appending one transition to a store sequence is one more store call. -/
theorem storeList_step {S A R : Type} (b : ReplayMemoryBuffer S A R)
    (M : List (Transition S A R)) (x : Transition S A R) :
    ReplayMemoryBuffer.storeList b (M ++ [x])
      = (ReplayMemoryBuffer.storeList b M).store x := by
  simp [ReplayMemoryBuffer.storeList]

/-- Field computation of one store call. -/
theorem store_frames {S A R : Type} (b : ReplayMemoryBuffer S A R)
    (t : Transition S A R) :
    (b.store t).frames = Function.update b.frames b.pointer (some t.frame) := rfl

/-- Field computation of one store call. -/
theorem store_actions {S A R : Type} (b : ReplayMemoryBuffer S A R)
    (t : Transition S A R) :
    (b.store t).actions = Function.update b.actions b.pointer (some t.action) := rfl

/-- Field computation of one store call. -/
theorem store_rewards {S A R : Type} (b : ReplayMemoryBuffer S A R)
    (t : Transition S A R) :
    (b.store t).rewards = Function.update b.rewards b.pointer (some t.reward) := rfl

/-- Field computation of one store call. -/
theorem store_terminal {S A R : Type} (b : ReplayMemoryBuffer S A R)
    (t : Transition S A R) :
    (b.store t).terminal = Function.update b.terminal b.pointer (some t.terminal) := rfl

/-- Field computation of one store call. -/
theorem store_counter {S A R : Type} (b : ReplayMemoryBuffer S A R)
    (t : Transition S A R) :
    (b.store t).counter = max b.counter (b.pointer + 1) := rfl

/-- Field computation of one store call. -/
theorem store_pointer {S A R : Type} (b : ReplayMemoryBuffer S A R)
    (t : Transition S A R) :
    (b.store t).pointer = (b.pointer + 1) % b.max_size := rfl

/-- Field computation of one store call. -/
theorem store_max_size {S A R : Type} (b : ReplayMemoryBuffer S A R)
    (t : Transition S A R) :
    (b.store t).max_size = b.max_size := rfl

/-- Every sequence of store calls on a fresh buffer of positive capacity C
establishes the buffer invariant. -/
theorem storeList_inv {S A R : Type} (C : ℕ) (hC : 0 < C)
    (L : List (Transition S A R)) :
    BufferInv C L (ReplayMemoryBuffer.storeList (ReplayMemoryBuffer.mk0 S A R C) L) := by
  induction L using List.reverseRecOn with
  | nil =>
    refine ⟨rfl, by simp [ReplayMemoryBuffer.storeList, ReplayMemoryBuffer.mk0],
      by simp [ReplayMemoryBuffer.storeList, ReplayMemoryBuffer.mk0], ?_, ?_⟩
    · intro j hj _
      simp at hj
    · intro i hi
      simp [ReplayMemoryBuffer.storeList, ReplayMemoryBuffer.mk0] at hi
  | append_singleton M x ih =>
    obtain ⟨hms, hptr, hcnt, hwin, hsome⟩ := ih
    rw [storeList_step]
    set bM := ReplayMemoryBuffer.storeList (ReplayMemoryBuffer.mk0 S A R C) M
      with hbMdef
    have hmodlt : M.length % C < C := Nat.mod_lt _ hC
    have hlen : (M ++ [x]).length = M.length + 1 := by simp
    refine ⟨by rw [store_max_size, hms], ?_, ?_, ?_, ?_⟩
    · rw [store_pointer, hms, hptr, hlen]
      exact Nat.mod_add_mod M.length C 1
    · rw [store_counter, hcnt, hptr, hlen]
      rcases Nat.lt_or_ge M.length C with h | h
      · rw [Nat.mod_eq_of_lt h]
        omega
      · generalize M.length % C = m at hmodlt ⊢
        omega
    · intro j hj hwv
      have hj' : j < M.length + 1 := by omega
      rw [store_frames, store_actions, store_rewards, store_terminal, hptr]
      by_cases hcase : j = M.length
      · subst hcase
        have hget : (M ++ [x]).get ⟨M.length, hj⟩ = x := by
          simp [List.get_eq_getElem]
        rw [hget]
        exact ⟨Function.update_same _ _ _, Function.update_same _ _ _,
          Function.update_same _ _ _, Function.update_same _ _ _⟩
      · have hjlt : j < M.length := by omega
        have hne : j % C ≠ M.length % C := mod_ne_of_between hjlt (by omega)
        have hget : (M ++ [x]).get ⟨j, hj⟩ = M.get ⟨j, hjlt⟩ := by
          simp only [List.get_eq_getElem]
          exact List.getElem_append_left hjlt
        have hold := hwin j hjlt (by omega)
        rw [hget, Function.update_noteq hne, Function.update_noteq hne,
          Function.update_noteq hne, Function.update_noteq hne]
        exact hold
    · intro i hi
      rw [store_counter] at hi
      rw [store_frames, store_actions, store_rewards, store_terminal]
      by_cases hcase : i = bM.pointer
      · subst hcase
        rw [Function.update_same, Function.update_same, Function.update_same,
          Function.update_same]
        exact ⟨rfl, rfl, rfl, rfl⟩
      · have hi' : i < bM.counter := by
          rw [hcnt] at hi ⊢
          rw [hptr] at hi hcase
          rcases Nat.lt_or_ge M.length C with h | h
          · rw [Nat.mod_eq_of_lt h] at hi hcase
            omega
          · generalize M.length % C = m at hmodlt hi hcase
            omega
        rw [Function.update_noteq hcase, Function.update_noteq hcase,
          Function.update_noteq hcase, Function.update_noteq hcase]
        exact hsome i hi'

/-- With polyak coefficient 1 the blend returns the target parameters
unchanged (whenever the online list is at least as long, which holds for
aligned parameter sets). -/
theorem polyakBlend_one (t o : List ℝ) (h : t.length ≤ o.length) :
    polyakBlend 1 t o = t := by
  induction t generalizing o with
  | nil => simp [polyakBlend]
  | cons a t ih =>
    cases o with
    | nil => simp at h
    | cons b o =>
      simp only [polyakBlend, List.zipWith_cons_cons]
      exact congrArg₂ List.cons (by ring) (ih o (by simpa using h))

/-- With polyak coefficient 0 the blend returns the online parameters
exactly (whenever the target list is at least as long, which holds for
aligned parameter sets). -/
theorem polyakBlend_zero (t o : List ℝ) (h : o.length ≤ t.length) :
    polyakBlend 0 t o = o := by
  induction t generalizing o with
  | nil =>
    cases o with
    | nil => simp [polyakBlend]
    | cons b o => simp at h
  | cons a t ih =>
    cases o with
    | nil => simp [polyakBlend]
    | cons b o =>
      simp only [polyakBlend, List.zipWith_cons_cons]
      exact congrArg₂ List.cons (by ring) (ih o (by simpa using h))

/-- Field computation of one update call. -/
theorem update_Q1 {S PP : Type} (nets : SACNets S PP) (ad : AutoDiff PP)
    (agent : SAC PP) (batch : List (UpdateRow S)) :
    (SAC.update nets ad agent batch).1.Q1 = SAC.q1New nets ad agent batch := rfl

/-- Field computation of one update call. -/
theorem update_Q2 {S PP : Type} (nets : SACNets S PP) (ad : AutoDiff PP)
    (agent : SAC PP) (batch : List (UpdateRow S)) :
    (SAC.update nets ad agent batch).1.Q2 = SAC.q2New nets ad agent batch := rfl

/-- Field computation of one update call: each target critic is polyak-blended
toward the post-gradient-step online critic, on every call, after both
gradient phases. -/
theorem update_Q1_target {S PP : Type} (nets : SACNets S PP) (ad : AutoDiff PP)
    (agent : SAC PP) (batch : List (UpdateRow S)) :
    (SAC.update nets ad agent batch).1.Q1_target
      = polyakBlend agent.polyak agent.Q1_target (SAC.q1New nets ad agent batch) := rfl

/-- Field computation of one update call. -/
theorem update_Q2_target {S PP : Type} (nets : SACNets S PP) (ad : AutoDiff PP)
    (agent : SAC PP) (batch : List (UpdateRow S)) :
    (SAC.update nets ad agent batch).1.Q2_target
      = polyakBlend agent.polyak agent.Q2_target (SAC.q2New nets ad agent batch) := rfl

/-- Field computation of one update call. -/
theorem update_polyak_coeff {S PP : Type} (nets : SACNets S PP) (ad : AutoDiff PP)
    (agent : SAC PP) (batch : List (UpdateRow S)) :
    (SAC.update nets ad agent batch).1.polyak = agent.polyak := rfl

/-- A shape-preserving optimizer step keeps the parameter count of critic 1. -/
theorem q1New_length {S PP : Type} (nets : SACNets S PP) (ad : AutoDiff PP)
    (agent : SAC PP) (batch : List (UpdateRow S))
    (hstep1 : ∀ p g, (ad.stepQ1 p g).length = p.length) :
    (SAC.q1New nets ad agent batch).length = agent.Q1.length := hstep1 _ _

/-- A shape-preserving optimizer step keeps the parameter count of critic 2. -/
theorem q2New_length {S PP : Type} (nets : SACNets S PP) (ad : AutoDiff PP)
    (agent : SAC PP) (batch : List (UpdateRow S))
    (hstep2 : ∀ p g, (ad.stepQ2 p g).length = p.length) :
    (SAC.q2New nets ad agent batch).length = agent.Q2.length := hstep2 _ _

/-- With polyak coefficient 1, any number of repeated update calls leaves
both target critics' parameters unchanged (the optimizer steps are assumed
shape-preserving, as Adam is). -/
theorem updates_polyak_one {S PP : Type} (nets : SACNets S PP) (ad : AutoDiff PP)
    (hstep1 : ∀ p g, (ad.stepQ1 p g).length = p.length)
    (hstep2 : ∀ p g, (ad.stepQ2 p g).length = p.length) :
    ∀ (batches : List (List (UpdateRow S))) (agent : SAC PP),
      agent.polyak = 1 →
      agent.Q1_target.length ≤ agent.Q1.length →
      agent.Q2_target.length ≤ agent.Q2.length →
      (batches.foldl (fun ag bt => (SAC.update nets ad ag bt).1) agent).Q1_target
          = agent.Q1_target
      ∧ (batches.foldl (fun ag bt => (SAC.update nets ad ag bt).1) agent).Q2_target
          = agent.Q2_target := by
  intro batches
  induction batches with
  | nil =>
    intro agent _ _ _
    exact ⟨rfl, rfl⟩
  | cons bt bts ih =>
    intro agent hpol h1 h2
    have e1 : (SAC.update nets ad agent bt).1.Q1_target = agent.Q1_target := by
      rw [update_Q1_target, hpol]
      exact polyakBlend_one _ _ (by rw [q1New_length nets ad agent bt hstep1]; exact h1)
    have e2 : (SAC.update nets ad agent bt).1.Q2_target = agent.Q2_target := by
      rw [update_Q2_target, hpol]
      exact polyakBlend_one _ _ (by rw [q2New_length nets ad agent bt hstep2]; exact h2)
    obtain ⟨r1, r2⟩ := ih (SAC.update nets ad agent bt).1
      (by rw [update_polyak_coeff]; exact hpol)
      (by rw [e1, update_Q1, q1New_length nets ad agent bt hstep1]; exact h1)
      (by rw [e2, update_Q2, q2New_length nets ad agent bt hstep2]; exact h2)
    constructor
    · rw [List.foldl_cons] at *
      rw [r1, e1]
    · rw [List.foldl_cons] at *
      rw [r2, e2]

/-- C1: for every batch row consumed by SAC.update, the critic bootstrap
target equals reward + gamma * (1 - done) * (min(Q1_target(s2, a2),
Q2_target(s2, a2)) - alpha * log_prob_next), where (a2, log_prob_next) is
the fresh stochastic policy sample taken at the next states s2 with the
call's noise draw xi2; the per-row minimum of the two target critics never
exceeds either individual target estimate; and both critic losses inside
SAC.update are formed against exactly this target. -/
theorem sac_critic_target_spec {S PP : Type} (nets : SACNets S PP)
    (ad : AutoDiff PP) (agent : SAC PP) (batch : List (UpdateRow S))
    (row : UpdateRow S) :
    (SAC.criticTarget nets agent row
      = row.r + agent.gamma * (1 - row.d) *
          (min (nets.Qnet agent.Q1_target row.s2
                  (PolicyPi.sample_action (nets.piFwd agent.pi row.s2) row.xi2).1)
               (nets.Qnet agent.Q2_target row.s2
                  (PolicyPi.sample_action (nets.piFwd agent.pi row.s2) row.xi2).1)
            - agent.alpha
                * (PolicyPi.sample_action (nets.piFwd agent.pi row.s2) row.xi2).2))
    ∧ min (nets.Qnet agent.Q1_target row.s2
            (PolicyPi.sample_action (nets.piFwd agent.pi row.s2) row.xi2).1)
          (nets.Qnet agent.Q2_target row.s2
            (PolicyPi.sample_action (nets.piFwd agent.pi row.s2) row.xi2).1)
        ≤ nets.Qnet agent.Q1_target row.s2
            (PolicyPi.sample_action (nets.piFwd agent.pi row.s2) row.xi2).1
    ∧ min (nets.Qnet agent.Q1_target row.s2
            (PolicyPi.sample_action (nets.piFwd agent.pi row.s2) row.xi2).1)
          (nets.Qnet agent.Q2_target row.s2
            (PolicyPi.sample_action (nets.piFwd agent.pi row.s2) row.xi2).1)
        ≤ nets.Qnet agent.Q2_target row.s2
            (PolicyPi.sample_action (nets.piFwd agent.pi row.s2) row.xi2).1
    ∧ (SAC.update nets ad agent batch).2.1
        = (batch.map fun row' =>
            (nets.Qnet agent.Q1 row'.s row'.a
              - SAC.criticTarget nets agent row') ^ 2).sum
    ∧ (SAC.update nets ad agent batch).2.2.1
        = (batch.map fun row' =>
            (nets.Qnet agent.Q2 row'.s row'.a
              - SAC.criticTarget nets agent row') ^ 2).sum :=
  ⟨rfl, min_le_left _ _, min_le_right _ _, rfl, rfl⟩

/-- C2: for every (mu, std) row and every noise draw xi, the log_prob
returned by PolicyPi.sample_action equals the per-dimension Gaussian
log-density of a_bar = mu + std * xi under (mu, std) summed over the action
dimensions, minus the tanh-Jacobian correction summed over the action
dimensions, one scalar per batch row. -/
theorem sample_action_log_prob_spec (musig : List (ℝ × ℝ)) (xi : List ℝ) :
    (PolicyPi.sample_action musig xi).2
      = specGaussianLogDensity musig xi - specTanhCorrection musig xi := by
  unfold PolicyPi.sample_action specGaussianLogDensity specTanhCorrection
  simp only [List.map_map]
  rfl

/-- C3: in every SAC.update call the policy loss equals the negated sum over
the batch of (min of the two online critics at (s, a1) - alpha * log_prob),
where (a1, log_prob) is the fresh reparameterized policy sample drawn at the
same states s with the call's second noise draw xi1 (not the draw xi2 used
for the target computation), the critics evaluated are the updated online
critics, and the policy parameters receive exactly one optimizer step while
the critic parameters are produced by the critic step alone. -/
theorem sac_policy_loss_spec {S PP : Type} (nets : SACNets S PP)
    (ad : AutoDiff PP) (agent : SAC PP) (batch : List (UpdateRow S)) :
    ((SAC.update nets ad agent batch).2.2.2
      = -((batch.map fun row =>
          min (nets.Qnet (SAC.update nets ad agent batch).1.Q1 row.s
                (PolicyPi.sample_action (nets.piFwd agent.pi row.s) row.xi1).1)
              (nets.Qnet (SAC.update nets ad agent batch).1.Q2 row.s
                (PolicyPi.sample_action (nets.piFwd agent.pi row.s) row.xi1).1)
            - agent.alpha
                * (PolicyPi.sample_action (nets.piFwd agent.pi row.s) row.xi1).2).sum))
    ∧ (SAC.update nets ad agent batch).1.pi
        = ad.stepPi agent.pi
            (ad.gradPi (SAC.pi_loss_fn nets ad agent batch) agent.pi)
    ∧ (SAC.update nets ad agent batch).1.Q1 = SAC.q1New nets ad agent batch
    ∧ (SAC.update nets ad agent batch).1.Q2 = SAC.q2New nets ad agent batch :=
  ⟨rfl, rfl, rfl, rfl⟩

/-- C4: in every SAC.update call each online critic's loss is the sum (not
the mean) over the batch of squared errors between that critic's estimate at
(state, action) and the shared target y = criticTarget; each critic's
parameters receive exactly one optimizer step on the gradient of its own
loss function, in which theta ranges over that critic's own parameters only
and the target y is a fixed constant (no dependence on the target networks'
parameters beyond the already-computed value of y). -/
theorem sac_critic_loss_spec {S PP : Type} (nets : SACNets S PP)
    (ad : AutoDiff PP) (agent : SAC PP) (batch : List (UpdateRow S)) :
    ((SAC.update nets ad agent batch).2.1
      = (batch.map fun row =>
          (nets.Qnet agent.Q1 row.s row.a
            - SAC.criticTarget nets agent row) ^ 2).sum)
    ∧ (SAC.update nets ad agent batch).2.2.1
        = (batch.map fun row =>
            (nets.Qnet agent.Q2 row.s row.a
              - SAC.criticTarget nets agent row) ^ 2).sum
    ∧ (SAC.update nets ad agent batch).1.Q1
        = ad.stepQ1 agent.Q1
            (ad.gradQ (fun theta => (batch.map fun row =>
              (nets.Qnet theta row.s row.a
                - SAC.criticTarget nets agent row) ^ 2).sum) agent.Q1)
    ∧ (SAC.update nets ad agent batch).1.Q2
        = ad.stepQ2 agent.Q2
            (ad.gradQ (fun theta => (batch.map fun row =>
              (nets.Qnet theta row.s row.a
                - SAC.criticTarget nets agent row) ^ 2).sum) agent.Q2) :=
  ⟨rfl, rfl, rfl, rfl⟩

/-- C5: on every SAC.update call, after both gradient phases, each target
critic's parameter list is replaced by polyak * theta_target
+ (1 - polyak) * theta_online against the post-step online parameters,
unconditionally; with polyak = 1 one update (and, by the last conjunct, any
number of repeated updates) leaves the target parameters unchanged, and with
polyak = 0 the target parameters equal the online parameters exactly after
one synchronization.  The optimizer steps are assumed shape-preserving (as
Adam is) and the target lists start aligned with the online lists (as the
constructor's set_weights copy guarantees). -/
theorem sac_polyak_sync {S PP : Type} (nets : SACNets S PP) (ad : AutoDiff PP)
    (agent : SAC PP) (batch : List (UpdateRow S))
    (hstep1 : ∀ p g, (ad.stepQ1 p g).length = p.length)
    (hstep2 : ∀ p g, (ad.stepQ2 p g).length = p.length)
    (hlen1 : agent.Q1_target.length = agent.Q1.length)
    (hlen2 : agent.Q2_target.length = agent.Q2.length) :
    ((SAC.update nets ad agent batch).1.Q1_target
        = polyakBlend agent.polyak agent.Q1_target
            (SAC.update nets ad agent batch).1.Q1
      ∧ (SAC.update nets ad agent batch).1.Q2_target
        = polyakBlend agent.polyak agent.Q2_target
            (SAC.update nets ad agent batch).1.Q2)
    ∧ (agent.polyak = 1 →
        (SAC.update nets ad agent batch).1.Q1_target = agent.Q1_target
        ∧ (SAC.update nets ad agent batch).1.Q2_target = agent.Q2_target)
    ∧ (agent.polyak = 0 →
        (SAC.update nets ad agent batch).1.Q1_target
          = (SAC.update nets ad agent batch).1.Q1
        ∧ (SAC.update nets ad agent batch).1.Q2_target
          = (SAC.update nets ad agent batch).1.Q2)
    ∧ (agent.polyak = 1 → ∀ batches : List (List (UpdateRow S)),
        (batches.foldl (fun ag bt => (SAC.update nets ad ag bt).1) agent).Q1_target
          = agent.Q1_target
        ∧ (batches.foldl (fun ag bt => (SAC.update nets ad ag bt).1) agent).Q2_target
          = agent.Q2_target) := by
  refine ⟨⟨rfl, rfl⟩, ?_, ?_, ?_⟩
  · intro hpol
    constructor
    · rw [update_Q1_target, hpol]
      exact polyakBlend_one _ _
        (by rw [q1New_length nets ad agent batch hstep1]; exact hlen1.le)
    · rw [update_Q2_target, hpol]
      exact polyakBlend_one _ _
        (by rw [q2New_length nets ad agent batch hstep2]; exact hlen2.le)
  · intro hpol
    constructor
    · rw [update_Q1_target, update_Q1, hpol]
      exact polyakBlend_zero _ _
        (by rw [q1New_length nets ad agent batch hstep1]; exact hlen1.ge)
    · rw [update_Q2_target, update_Q2, hpol]
      exact polyakBlend_zero _ _
        (by rw [q2New_length nets ad agent batch hstep2]; exact hlen2.ge)
  · intro hpol batches
    exact updates_polyak_one nets ad hstep1 hstep2 batches agent hpol hlen1.le hlen2.le

/-- Witness for the polyak synchronization theorem at a concrete agent with
polyak coefficient 1, trivial networks and identity optimizer steps. -/
theorem sac_polyak_sync_witness :
    (∀ p g, (trivAd.stepQ1 p g).length = p.length)
    ∧ (∀ p g, (trivAd.stepQ2 p g).length = p.length)
    ∧ trivAgent.Q1_target.length = trivAgent.Q1.length
    ∧ trivAgent.Q2_target.length = trivAgent.Q2.length
    ∧ (((SAC.update trivNets trivAd trivAgent []).1.Q1_target
          = polyakBlend trivAgent.polyak trivAgent.Q1_target
              (SAC.update trivNets trivAd trivAgent []).1.Q1
        ∧ (SAC.update trivNets trivAd trivAgent []).1.Q2_target
          = polyakBlend trivAgent.polyak trivAgent.Q2_target
              (SAC.update trivNets trivAd trivAgent []).1.Q2)
      ∧ (trivAgent.polyak = 1 →
          (SAC.update trivNets trivAd trivAgent []).1.Q1_target
            = trivAgent.Q1_target
          ∧ (SAC.update trivNets trivAd trivAgent []).1.Q2_target
            = trivAgent.Q2_target)
      ∧ (trivAgent.polyak = 0 →
          (SAC.update trivNets trivAd trivAgent []).1.Q1_target
            = (SAC.update trivNets trivAd trivAgent []).1.Q1
          ∧ (SAC.update trivNets trivAd trivAgent []).1.Q2_target
            = (SAC.update trivNets trivAd trivAgent []).1.Q2)
      ∧ (trivAgent.polyak = 1 → ∀ batches : List (List (UpdateRow Unit)),
          (batches.foldl (fun ag bt => (SAC.update trivNets trivAd ag bt).1)
            trivAgent).Q1_target = trivAgent.Q1_target
          ∧ (batches.foldl (fun ag bt => (SAC.update trivNets trivAd ag bt).1)
            trivAgent).Q2_target = trivAgent.Q2_target)) :=
  ⟨fun _ _ => rfl, fun _ _ => rfl, rfl, rfl,
    sac_polyak_sync trivNets trivAd trivAgent []
      (fun _ _ => rfl) (fun _ _ => rfl) rfl rfl⟩

/-- C6: for every sequence of k > C stores on a fresh buffer of capacity
C > 0, the valid count equals C, the four parallel arrays hold exactly the C
most recently stored transitions (store number j of the last C lives in slot
j mod C, and those slots are pairwise distinct, so the oldest k - C stores
have been overwritten), and every store succeeded (store is a total
function; the embedding returns a buffer for every input). -/
theorem replay_store_fifo {S A R : Type} (C : ℕ) (hC : 0 < C)
    (L : List (Transition S A R)) (hk : C < L.length) :
    (ReplayMemoryBuffer.storeList (ReplayMemoryBuffer.mk0 S A R C) L).counter = C
    ∧ (∀ j, (hj : j < L.length) → L.length - C ≤ j →
        (ReplayMemoryBuffer.storeList (ReplayMemoryBuffer.mk0 S A R C) L).frames
            (j % C) = some (L.get ⟨j, hj⟩).frame
        ∧ (ReplayMemoryBuffer.storeList (ReplayMemoryBuffer.mk0 S A R C) L).actions
            (j % C) = some (L.get ⟨j, hj⟩).action
        ∧ (ReplayMemoryBuffer.storeList (ReplayMemoryBuffer.mk0 S A R C) L).rewards
            (j % C) = some (L.get ⟨j, hj⟩).reward
        ∧ (ReplayMemoryBuffer.storeList (ReplayMemoryBuffer.mk0 S A R C) L).terminal
            (j % C) = some (L.get ⟨j, hj⟩).terminal)
    ∧ (∀ j j', L.length - C ≤ j → j < L.length → L.length - C ≤ j' →
        j' < L.length → j % C = j' % C → j = j') := by
  obtain ⟨_, _, hcnt, hwin, _⟩ := storeList_inv C hC L
  refine ⟨by rw [hcnt]; omega, ?_, ?_⟩
  · intro j hj hge
    exact hwin j hj (by omega)
  · intro j j' h1 h2 h3 h4 heq
    by_contra hne
    rcases Nat.lt_or_ge j j' with hlt | hge2
    · exact mod_ne_of_between hlt (by omega) heq
    · have hlt' : j' < j := by omega
      exact mod_ne_of_between hlt' (by omega) heq.symm

/-- Witness for the FIFO theorem: three stores into a fresh buffer of
capacity two. -/
theorem replay_store_fifo_witness :
    0 < 2 ∧ 2 < wTransitions.length
    ∧ ((ReplayMemoryBuffer.storeList (ReplayMemoryBuffer.mk0 ℕ ℕ ℕ 2)
          wTransitions).counter = 2
      ∧ (∀ j, (hj : j < wTransitions.length) → wTransitions.length - 2 ≤ j →
          (ReplayMemoryBuffer.storeList (ReplayMemoryBuffer.mk0 ℕ ℕ ℕ 2)
              wTransitions).frames (j % 2)
            = some (wTransitions.get ⟨j, hj⟩).frame
          ∧ (ReplayMemoryBuffer.storeList (ReplayMemoryBuffer.mk0 ℕ ℕ ℕ 2)
              wTransitions).actions (j % 2)
            = some (wTransitions.get ⟨j, hj⟩).action
          ∧ (ReplayMemoryBuffer.storeList (ReplayMemoryBuffer.mk0 ℕ ℕ ℕ 2)
              wTransitions).rewards (j % 2)
            = some (wTransitions.get ⟨j, hj⟩).reward
          ∧ (ReplayMemoryBuffer.storeList (ReplayMemoryBuffer.mk0 ℕ ℕ ℕ 2)
              wTransitions).terminal (j % 2)
            = some (wTransitions.get ⟨j, hj⟩).terminal)
      ∧ (∀ j j', wTransitions.length - 2 ≤ j → j < wTransitions.length →
          wTransitions.length - 2 ≤ j' → j' < wTransitions.length →
          j % 2 = j' % 2 → j = j')) :=
  ⟨by decide, by decide, replay_store_fifo 2 (by decide) wTransitions (by decide)⟩

/-- C7: for every buffer reached by a store sequence, once at least two
transitions are valid, sample_batch with draws in the range [0, counter - 1)
returns, in sampling order, the rows (state[i], action[i], reward[i],
state[i+1], done[i]), and neither the lookup at i nor the next-state lookup
at i + 1 ever reads an uninitialized slot. -/
theorem replay_sample_batch_safe {S A R : Type} (C : ℕ) (hC : 0 < C)
    (L : List (Transition S A R)) (idxs : List ℕ)
    (h2 : 2 ≤ (ReplayMemoryBuffer.storeList (ReplayMemoryBuffer.mk0 S A R C) L).counter)
    (hidx : ∀ i ∈ idxs,
      (ReplayMemoryBuffer.storeList (ReplayMemoryBuffer.mk0 S A R C) L).validDrawIdx i) :
    (ReplayMemoryBuffer.storeList (ReplayMemoryBuffer.mk0 S A R C) L).sample_batch idxs
      = some (idxs.map fun i =>
          { s := (ReplayMemoryBuffer.storeList (ReplayMemoryBuffer.mk0 S A R C) L).frames i
            a := (ReplayMemoryBuffer.storeList (ReplayMemoryBuffer.mk0 S A R C) L).actions i
            r := (ReplayMemoryBuffer.storeList (ReplayMemoryBuffer.mk0 S A R C) L).rewards i
            s2 := (ReplayMemoryBuffer.storeList (ReplayMemoryBuffer.mk0 S A R C) L).frames (i + 1)
            d := (ReplayMemoryBuffer.storeList (ReplayMemoryBuffer.mk0 S A R C) L).terminal i })
    ∧ ∀ i ∈ idxs,
        ((ReplayMemoryBuffer.storeList (ReplayMemoryBuffer.mk0 S A R C) L).frames i).isSome = true
        ∧ ((ReplayMemoryBuffer.storeList (ReplayMemoryBuffer.mk0 S A R C) L).actions i).isSome = true
        ∧ ((ReplayMemoryBuffer.storeList (ReplayMemoryBuffer.mk0 S A R C) L).rewards i).isSome = true
        ∧ ((ReplayMemoryBuffer.storeList (ReplayMemoryBuffer.mk0 S A R C) L).frames (i + 1)).isSome = true
        ∧ ((ReplayMemoryBuffer.storeList (ReplayMemoryBuffer.mk0 S A R C) L).terminal i).isSome = true := by
  obtain ⟨_, _, _, _, hsome⟩ := storeList_inv C hC L
  constructor
  · unfold ReplayMemoryBuffer.sample_batch
    rw [if_pos h2]
  · intro i hi
    have hv := hidx i hi
    unfold ReplayMemoryBuffer.validDrawIdx at hv
    have hi1 : i < (ReplayMemoryBuffer.storeList (ReplayMemoryBuffer.mk0 S A R C) L).counter := by
      omega
    have hi2 : i + 1 < (ReplayMemoryBuffer.storeList (ReplayMemoryBuffer.mk0 S A R C) L).counter := by
      omega
    obtain ⟨f1, a1, r1, t1⟩ := hsome i hi1
    obtain ⟨f2, _, _, _⟩ := hsome (i + 1) hi2
    exact ⟨f1, a1, r1, f2, t1⟩

/-- Witness for the sampling-safety theorem: capacity two, three stores
(so the valid count is two), one draw at index zero. -/
theorem replay_sample_batch_safe_witness :
    0 < 2
    ∧ 2 ≤ (ReplayMemoryBuffer.storeList (ReplayMemoryBuffer.mk0 ℕ ℕ ℕ 2)
        wTransitions).counter
    ∧ (∀ i ∈ [0],
        (ReplayMemoryBuffer.storeList (ReplayMemoryBuffer.mk0 ℕ ℕ ℕ 2)
          wTransitions).validDrawIdx i)
    ∧ ((ReplayMemoryBuffer.storeList (ReplayMemoryBuffer.mk0 ℕ ℕ ℕ 2)
          wTransitions).sample_batch [0]
        = some (([0] : List ℕ).map fun i =>
            { s := (ReplayMemoryBuffer.storeList (ReplayMemoryBuffer.mk0 ℕ ℕ ℕ 2) wTransitions).frames i
              a := (ReplayMemoryBuffer.storeList (ReplayMemoryBuffer.mk0 ℕ ℕ ℕ 2) wTransitions).actions i
              r := (ReplayMemoryBuffer.storeList (ReplayMemoryBuffer.mk0 ℕ ℕ ℕ 2) wTransitions).rewards i
              s2 := (ReplayMemoryBuffer.storeList (ReplayMemoryBuffer.mk0 ℕ ℕ ℕ 2) wTransitions).frames (i + 1)
              d := (ReplayMemoryBuffer.storeList (ReplayMemoryBuffer.mk0 ℕ ℕ ℕ 2) wTransitions).terminal i })
      ∧ ∀ i ∈ ([0] : List ℕ),
          ((ReplayMemoryBuffer.storeList (ReplayMemoryBuffer.mk0 ℕ ℕ ℕ 2) wTransitions).frames i).isSome = true
          ∧ ((ReplayMemoryBuffer.storeList (ReplayMemoryBuffer.mk0 ℕ ℕ ℕ 2) wTransitions).actions i).isSome = true
          ∧ ((ReplayMemoryBuffer.storeList (ReplayMemoryBuffer.mk0 ℕ ℕ ℕ 2) wTransitions).rewards i).isSome = true
          ∧ ((ReplayMemoryBuffer.storeList (ReplayMemoryBuffer.mk0 ℕ ℕ ℕ 2) wTransitions).frames (i + 1)).isSome = true
          ∧ ((ReplayMemoryBuffer.storeList (ReplayMemoryBuffer.mk0 ℕ ℕ ℕ 2) wTransitions).terminal i).isSome = true) :=
  ⟨by decide, by decide,
    (fun i hi => by
      simp only [List.mem_singleton] at hi
      subst hi
      exact (by decide :
        (0 : ℕ) < (ReplayMemoryBuffer.storeList (ReplayMemoryBuffer.mk0 ℕ ℕ ℕ 2)
          wTransitions).counter - 1)),
    replay_sample_batch_safe 2 (by decide) wTransitions [0] (by decide)
      (fun i hi => by
        simp only [List.mem_singleton] at hi
        subst hi
        exact (by decide :
          (0 : ℕ) < (ReplayMemoryBuffer.storeList (ReplayMemoryBuffer.mk0 ℕ ℕ ℕ 2)
            wTransitions).counter - 1))⟩

/-- C8: whenever fewer than two valid transitions are stored, sample_batch
fails (np.random.randint raises ValueError because high <= low) instead of
returning a batch. -/
theorem replay_sample_batch_underflow {S A R : Type}
    (b : ReplayMemoryBuffer S A R) (idxs : List ℕ) (h : b.counter < 2) :
    b.sample_batch idxs = none := by
  unfold ReplayMemoryBuffer.sample_batch
  rw [if_neg (by omega)]

/-- Witness for the underflow theorem: a fresh buffer has no valid
transitions, so sampling fails. -/
theorem replay_sample_batch_underflow_witness :
    (ReplayMemoryBuffer.mk0 ℕ ℕ ℕ 5).counter < 2
    ∧ (ReplayMemoryBuffer.mk0 ℕ ℕ ℕ 5).sample_batch [0] = none :=
  ⟨by decide, replay_sample_batch_underflow _ [0] (by decide)⟩

/-- C9 counterexample: with fixed policy output (mu, std) = (0, 1), a fixed
state batch and a fixed noise source (the global generator initialized to
the stream n and position 0), two successive runs of sample_action return
different actions, because tf.random.normal draws from — and advances — the
hidden global generator on each call rather than consuming externally
supplied noise. -/
theorem sample_action_global_rng_counterexample :
    (PolicyPi.sample_actionGlobal [((0 : ℝ), 1)] ⟨fun n => (n : ℝ), 0⟩).1.1
      ≠ (PolicyPi.sample_actionGlobal [((0 : ℝ), 1)]
          (PolicyPi.sample_actionGlobal [((0 : ℝ), 1)] ⟨fun n => (n : ℝ), 0⟩).2).1.1 := by
  have e1 : (PolicyPi.sample_actionGlobal [((0 : ℝ), 1)] ⟨fun n => (n : ℝ), 0⟩).1.1
      = [Real.tanh (0 + 1 * ((0 : ℕ) : ℝ))] := by
    unfold PolicyPi.sample_actionGlobal PolicyPi.sample_action TFGlobalRng.normal
    simp [List.range_succ]
  have e2 : (PolicyPi.sample_actionGlobal [((0 : ℝ), 1)]
        (PolicyPi.sample_actionGlobal [((0 : ℝ), 1)] ⟨fun n => (n : ℝ), 0⟩).2).1.1
      = [Real.tanh (0 + 1 * ((1 : ℕ) : ℝ))] := by
    unfold PolicyPi.sample_actionGlobal PolicyPi.sample_action TFGlobalRng.normal
    simp [List.range_succ]
  rw [e1, e2]
  intro h
  have h1 : Real.tanh (0 + 1 * ((0 : ℕ) : ℝ)) = Real.tanh (0 + 1 * ((1 : ℕ) : ℝ)) := by
    injection h
  have h0 : Real.tanh (0 + 1 * ((0 : ℕ) : ℝ)) = 0 := by
    norm_num [Real.tanh_zero]
  have hone : Real.tanh (0 + 1 * ((1 : ℕ) : ℝ)) = Real.tanh 1 := by
    norm_num
  have hpos : 0 < Real.tanh 1 := by
    rw [Real.tanh_eq_sinh_div_cosh]
    exact div_pos (Real.sinh_pos_iff.mpr one_pos) (Real.cosh_pos 1)
  rw [h0, hone] at h1
  exact hpos.ne' h1.symm

/-- C9 (amended): given the parameters' forward output (mu, std), the state
batch, and the values actually drawn from the generator, sample_action is a
pure deterministic function — two generators that deliver the same noise
values produce identical (action, log_prob) — but the draw itself comes from
the hidden global TensorFlow generator, which advances on every call, not
from an externally supplied noise argument. -/
theorem sample_action_noise_deterministic (musig : List (ℝ × ℝ))
    (g g' : TFGlobalRng)
    (h : ∀ k, k < musig.length → g.stream (g.pos + k) = g'.stream (g'.pos + k)) :
    (PolicyPi.sample_actionGlobal musig g).1
      = (PolicyPi.sample_actionGlobal musig g').1 := by
  unfold PolicyPi.sample_actionGlobal TFGlobalRng.normal
  show PolicyPi.sample_action musig _ = PolicyPi.sample_action musig _
  congr 1
  exact List.map_congr_left fun k hk => h k (List.mem_range.mp hk)

/-- Witness for the determinism-given-noise theorem: two generator states at
different positions over a constant stream deliver the same draws, hence the
same sample. -/
theorem sample_action_noise_deterministic_witness :
    (∀ k, k < ([((0 : ℝ), (1 : ℝ))]).length →
      (⟨fun _ => 0, 0⟩ : TFGlobalRng).stream ((⟨fun _ => 0, 0⟩ : TFGlobalRng).pos + k)
        = (⟨fun _ => 0, 3⟩ : TFGlobalRng).stream ((⟨fun _ => 0, 3⟩ : TFGlobalRng).pos + k))
    ∧ (PolicyPi.sample_actionGlobal [((0 : ℝ), 1)] ⟨fun _ => 0, 0⟩).1
        = (PolicyPi.sample_actionGlobal [((0 : ℝ), 1)] ⟨fun _ => 0, 3⟩).1 :=
  ⟨fun _ _ => rfl,
    sample_action_noise_deterministic [((0 : ℝ), 1)] ⟨fun _ => 0, 0⟩ ⟨fun _ => 0, 3⟩
      (fun _ _ => rfl)⟩
